import Mathlib

/-!
Verification development for the `cloud-lts/process` repository.

The repository has two Python source files:

* `extract_sources.py` — extracts the set of compiled source files from the
  debug info of a built kernel image and its modules, normalizes the paths
  relative to the build root (`CUR_DIR`), deduplicates them, and writes them
  sorted, one per line, to an output file.
* `process_cves.py` — fetches CVE records from a feed, resolves each record's
  fix commit via a local `git show --pretty= --name-only` query, and reports
  the records whose changed files intersect the compiled-file set.

Strings are modelled as `List Char` (`PyStr`).  Each Python primitive the
code uses (`str.strip`, `str.split`, `str.splitlines`, `file.readlines`,
`str.removeprefix`, `str.startswith`, `os.path.normpath`, `list.sort`) is
translated below; the two scripts' functions are then translated on top of
them, keeping the source names.  External effects (the dwarfdump subprocess,
the git subprocess, the HTTP response, the output file) are passed in as
explicit parameters or function-valued environments.
-/

/-- Python strings, modelled as lists of characters. -/
abbrev PyStr := List Char

/-- The whitespace characters stripped by Python's `str.strip()`
(the ASCII ones: space, tab, newline, carriage return, vertical tab,
form feed; the code never deals in non-ASCII whitespace). -/
def isPyWS (c : Char) : Bool :=
  c == ' ' || c == '\t' || c == '\n' || c == '\r' ||
    c == Char.ofNat 11 || c == Char.ofNat 12

/-- Strip leading Python whitespace. -/
def pyStripL (s : PyStr) : PyStr := s.dropWhile isPyWS

/-- Strip trailing Python whitespace. -/
def pyStripR (s : PyStr) : PyStr := (s.reverse.dropWhile isPyWS).reverse

/-- Python `str.strip()`: remove whitespace from both ends. -/
def pyStrip (s : PyStr) : PyStr := pyStripL (pyStripR s)

/-- Python `str.split(sep)` for a one-character separator: splits at every
occurrence of `sep`, keeping empty pieces, so the result is never empty
(`"".split(sep) == ['']`). -/
def pySplitChar (sep : Char) : PyStr → List PyStr
  | [] => [[]]
  | c :: rest =>
    if c = sep then [] :: pySplitChar sep rest
    else
      match pySplitChar sep rest with
      | [] => [[c]]
      | t :: ts => (c :: t) :: ts

/-- Python `str.splitlines()` / `bytes.splitlines()` restricted to the line
terminators that actually occur in tool output: LF, CR and CRLF.  The final
line needs no terminator, and `"".splitlines() == []`. -/
def pySplitlines : PyStr → List PyStr
  | [] => []
  | '\r' :: '\n' :: rest => [] :: pySplitlines rest
  | '\r' :: rest => [] :: pySplitlines rest
  | '\n' :: rest => [] :: pySplitlines rest
  | c :: rest =>
    match pySplitlines rest with
    | [] => [[c]]
    | t :: ts => (c :: t) :: ts

/-- Python text-file `readlines()`: split at newlines, each line keeping its
trailing `'\n'`; a last line without terminator is kept as is, and an empty
file yields no lines. -/
def pyReadLines : PyStr → List PyStr
  | [] => []
  | c :: rest =>
    if c = '\n' then ('\n' :: []) :: pyReadLines rest
    else
      match pyReadLines rest with
      | [] => [[c]]
      | t :: ts => (c :: t) :: ts

/-- Python `sep.join(pieces)` for a one-character separator. -/
def pyJoin (sep : Char) : List PyStr → PyStr
  | [] => []
  | [x] => x
  | x :: rest => x ++ sep :: pyJoin sep rest

/-- Python `str.removeprefix(pre)`: drop `pre` when it is a prefix,
otherwise return the string unchanged. -/
def pyRemovePre (pre s : PyStr) : PyStr :=
  if pre.isPrefixOf s then s.drop pre.length else s

/-- Python string `<=` (lexicographic by code point), as used by
`list.sort()` on a list of strings. -/
def pyStrLe : PyStr → PyStr → Bool
  | [], _ => true
  | _ :: _, [] => false
  | a :: as, b :: bs => if a < b then true else if a = b then pyStrLe as bs else false

/-- One step of CPython's `posixpath.normpath` component loop: skip `''` and
`'.'`; append a component unless it is `'..'` cancelling a previous real
component; a `'..'` with nothing to cancel is kept for relative paths and
dropped for absolute ones. `isl` is the number of initial slashes. -/
def npStep (isl : Nat) (acc : List PyStr) (comp : PyStr) : List PyStr :=
  if comp = [] ∨ comp = ('.' :: []) then acc
  else if comp ≠ ('.' :: '.' :: []) ∨ (isl = 0 ∧ acc = []) ∨
      acc.getLast? = some ('.' :: '.' :: []) then acc ++ [comp]
  else if acc ≠ [] then acc.dropLast
  else acc

/-- CPython's `posixpath.normpath`: collapse separators and resolve `.`/`..`
segments textually.  `normpath('') == '.'`; one or two leading slashes are
preserved, three or more collapse to one. -/
def normpath (path : PyStr) : PyStr :=
  if path = [] then ('.' :: [])
  else
    let isl : Nat :=
      if ('/' :: []).isPrefixOf path then
        if ('/' :: '/' :: []).isPrefixOf path ∧
            ¬ ('/' :: '/' :: '/' :: []).isPrefixOf path then 2 else 1
      else 0
    let comps := pySplitChar '/' path
    let nc := comps.foldl (npStep isl) []
    let res := List.replicate isl '/' ++ pyJoin '/' nc
    if res = [] then ('.' :: []) else res

/-! ## extract_sources.py -/

/-- `normalize_source_path` from `extract_sources.py`: strip the line; a line
not starting with the build root is anomalous and maps to `''` (the drop
sentinel); otherwise remove the `CUR_DIR + '/'` prefix and `normpath` the
rest.  `curDir` stands for the global `CUR_DIR`. -/
def normalize_source_path (curDir path : PyStr) : PyStr :=
  let p := pyStrip path
  if curDir.isPrefixOf p then normpath (pyRemovePre (curDir ++ ('/' :: [])) p)
  else []

/-- The pure part of `extract_sources_from_binary`: given the decoded stdout
of `llvm-dwarfdump --show-sources`, strip it, split into lines, normalize
each line, and keep those that are neither `''` nor `'<built-in>'`. -/
def extract_sources_from_binary (curDir stdout : PyStr) : List PyStr :=
  ((pySplitlines (pyStrip stdout)).map (normalize_source_path curDir)).filter
    (fun f => decide (f ≠ [] ∧ f ≠ ("<built-in>".data)))

/-- The aggregation in `extract_sources`: concatenate every binary's
normalized sources and deduplicate (`list(set(...))`; the element order of a
Python set is unspecified, so the duplicate-free list produced by
`List.dedup` is one faithful choice — downstream `write_sources` sorts). -/
def aggregate_sources (curDir : PyStr) (outputs : List PyStr) : List PyStr :=
  (outputs.flatMap (extract_sources_from_binary curDir)).dedup

/-- Run `llvm-dwarfdump` over each binary in order; `none` models a non-zero
exit, which `subprocess.check_output` turns into an exception aborting the
whole comprehension at the first failing binary. -/
def runListSources {β : Type} (tool : β → Option PyStr) : List β → Option (List PyStr)
  | [] => some []
  | b :: rest =>
    match tool b with
    | none => none
    | some out =>
      match runListSources tool rest with
      | none => none
      | some outs => some (out :: outs)

/-- `extract_sources` from `extract_sources.py`: dwarfdump every binary
(`vmlinux` plus the globbed `*.ko` list, passed in as `binaries`), aggregate
and deduplicate; any tool failure propagates. -/
def extract_sources {β : Type} (tool : β → Option PyStr) (curDir : PyStr)
    (binaries : List β) : Option (List PyStr) :=
  (runListSources tool binaries).map (aggregate_sources curDir)

/-- The effect of `write_sources` on its `sources` argument: `sources.sort()`
sorts the list in place, ascending by Python string comparison. -/
def write_sources_arg (sources : List PyStr) : List PyStr :=
  sources.mergeSort pyStrLe

/-- The file content produced by `write_sources`:
`print(*sources, sep='\n', file=f)` after the in-place sort, i.e. the sorted
paths joined by `'\n'` plus the trailing `'\n'` that `print` appends.  For an
empty list the file consists of a single newline. -/
def write_sources_content (sources : List PyStr) : PyStr :=
  pyJoin '\n' (write_sources_arg sources) ++ ('\n' :: [])

/-- The extraction stage of `main` in `extract_sources.py`, viewed through
its effect on the output file (`prev` is the file's prior state, `none` when
absent): if `extract_sources` raises, `main` logs and exits before
`write_sources`, leaving the file untouched; otherwise the sorted sources
are written, replacing any prior content. -/
def extract_stage {β : Type} (tool : β → Option PyStr) (curDir : PyStr)
    (binaries : List β) (prev : Option PyStr) : Option PyStr :=
  match extract_sources tool curDir binaries with
  | none => prev
  | some sources => some (write_sources_content sources)

/-! ## process_cves.py -/

/-- A CVE record as used by `process_cves.py`: its `"id"` and the `"url"`
fields of its `"references"` list. -/
structure Cve where
  id : PyStr
  references : List PyStr

/-- The fix-commit URL prefix tested by `evaluate_cve`. -/
def fixUrlStart : PyStr := ("https://git.kernel.org/stable/c/").data

/-- `ref["url"].split("/")[-1].strip()`: the commit identifier taken from a
reference URL. -/
def commitOf (url : PyStr) : PyStr :=
  pyStrip ((pySplitChar '/' url).getLastD [])

/-- The reference loop of `evaluate_cve`.  `resolve` models the
`git show --pretty= --name-only <commit>` subprocess: `none` for a non-zero
exit, `some stdout` otherwise.  Returns the verdict together with the list
of commits for which a git query was issued (in order) — the second
component instruments the claim that certain records issue no query.
On a non-zero exit the code says `continue`, so scanning proceeds with the
remaining references; on success the verdict is whether any stripped stdout
line is a member of `compiled` and no further reference is examined. -/
def evalRefs (resolve : PyStr → Option PyStr) (compiled : List PyStr) :
    List PyStr → Bool × List PyStr
  | [] => (false, [])
  | url :: rest =>
    if fixUrlStart.isPrefixOf url then
      match resolve (commitOf url) with
      | none =>
        ((evalRefs resolve compiled rest).1,
          commitOf url :: (evalRefs resolve compiled rest).2)
      | some out =>
        (((pySplitlines out).map pyStrip).any (fun f => decide (f ∈ compiled)),
          [commitOf url])
    else evalRefs resolve compiled rest

/-- `evaluate_cve` from `process_cves.py`, instrumented with the list of
issued git queries. -/
def evaluate_cve (resolve : PyStr → Option PyStr) (compiled : List PyStr)
    (cve : Cve) : Bool × List PyStr :=
  evalRefs resolve compiled cve.references

/-- `fetch_cves` from `process_cves.py`: a non-200 HTTP status yields the
empty record list; a 200 response is parsed (the JSON decoding of the body
is abstracted as `parse`). -/
def fetch_cves (parse : PyStr → List Cve) (status : Nat) (body : PyStr) : List Cve :=
  if status ≠ 200 then [] else parse body

/-- The compiled-file loading step of `main` in `process_cves.py`:
`readlines`, strip each line, `normpath` it, collect (the Python `set` is
the membership view of this list). -/
def read_compiled_files (content : PyStr) : List PyStr :=
  (pyReadLines content).map (fun l => normpath (pyStrip l))

/-- The applicable-record count computed by `main` in `process_cves.py`. -/
def count_applicable (resolve : PyStr → Option PyStr) (compiled : List PyStr)
    (cves : List Cve) : Nat :=
  (cves.filter (fun c => (evaluate_cve resolve compiled c).1)).length

/-- Applicability as §4.2 of the spec words it: the changed-file paths and
the compiled-file paths are compared after identical normalization (the
compiled set being already strip+normpath normalized at load, the spec
version applies the same strip+normpath to the version-control paths). -/
def spec_applicable (compiled : List PyStr) (stdout : PyStr) : Bool :=
  ((pySplitlines stdout).map (fun l => normpath (pyStrip l))).any
    (fun f => decide (f ∈ compiled))

/-! ## Concrete fixtures used by counterexamples and witnesses -/

/-- A git environment in which commit `c1` is unresolvable (non-zero exit)
and commit `c2` resolves to a one-line file list `a.c`. -/
def cexResolve1 : PyStr → Option PyStr :=
  fun c => if c = ("c2".data) then some ("a.c".data) else none

/-- Two fix-commit references: first to the unresolvable `c1`, then to the
resolvable `c2`. -/
def cexRefs1 : List PyStr :=
  [(("https://git.kernel.org/stable/c/c1").data),
   (("https://git.kernel.org/stable/c/c2").data)]

/-- A git environment in which commit `c1` resolves to the single changed
file `./a.c` (a non-canonical spelling of `a.c`). -/
def cexResolve4 : PyStr → Option PyStr :=
  fun c => if c = ("c1".data) then some ("./a.c".data) else none

/-- A single fix-commit reference to commit `c1`. -/
def cexRefs4 : List PyStr :=
  [(("https://git.kernel.org/stable/c/c1").data)]

/-- A dwarfdump environment (over artifact indices) in which artifact `1`
fails with a non-zero exit and every other artifact succeeds. -/
def cexTool5 : Nat → Option PyStr :=
  fun n => if n = 1 then none else some ("/build/a.c".data)

example : normpath ("./a.c".data) = ("a.c".data) := by decide
example : normpath [] = ('.' :: []) := by decide
example : normpath ("a//b/../c".data) = ("a/c".data) := by decide
example : pyStrip ("  a b\n".data) = ("a b".data) := by decide
example : pySplitlines ("a\r\nb\nc".data) = [("a".data), ("b".data), ("c".data)] := by decide
example : pyReadLines ("a\nb\n".data) = [("a\n".data), ("b\n".data)] := by decide
example : pyReadLines ("\n".data) = [("\n".data)] := by decide
example : normalize_source_path ("/build".data) (" /build/x/../a.c\n".data) = ("a.c".data) := by decide
example : normalize_source_path ("/build".data) ("/usr/include/x.h".data) = [] := by decide
example : extract_sources_from_binary ("/build".data) ("/build/a.c\n<built-in>\n/build/a.c".data) = [("a.c".data), ("a.c".data)] := by decide
example : commitOf (("https://git.kernel.org/stable/c/abc123").data) = ("abc123".data) := by decide

/-! ## Helper lemmas -/

/-- References not matching the fix-commit prefix are skipped by the
`evaluate_cve` loop without any effect. -/
theorem evalRefs_skip (resolve : PyStr → Option PyStr) (compiled : List PyStr)
    (before rest : List PyStr)
    (hb : ∀ u ∈ before, fixUrlStart.isPrefixOf u = false) :
    evalRefs resolve compiled (before ++ rest) = evalRefs resolve compiled rest := by
  induction before with
  | nil => rfl
  | cons u us ih =>
    have hu : fixUrlStart.isPrefixOf u = false := hb u (by simp)
    have ih' := ih (fun v hv => hb v (by simp [hv]))
    simpa [evalRefs, hu] using ih'

/-- If the tool fails on some binary in the list, sequencing the tool over
the whole list fails. -/
theorem runListSources_eq_none {β : Type} (tool : β → Option PyStr)
    (binaries : List β) (b : β) (hmem : b ∈ binaries) (hfail : tool b = none) :
    runListSources tool binaries = none := by
  induction binaries with
  | nil => cases hmem
  | cons x xs ih =>
    rcases List.mem_cons.mp hmem with h | h
    · subst h
      simp [runListSources, hfail]
    · cases hx : tool x with
      | none => simp [runListSources, hx]
      | some out => simp [runListSources, hx, ih h]

/-- In a duplicate-free list, a member occurs exactly once. -/
theorem count_one_of_nodup_mem {α : Type} [BEq α] [LawfulBEq α] {a : α}
    {l : List α} (d : l.Nodup) (h : a ∈ l) : List.count a l = 1 := by
  induction l with
  | nil => cases h
  | cons x xs ih =>
    rcases List.mem_cons.mp h with rfl | hmem
    · have hx : a ∉ xs := (List.nodup_cons.mp d).1
      rw [List.count_cons_self, List.count_eq_zero_of_not_mem hx]
    · have hne : a ≠ x := by
        rintro rfl
        exact (List.nodup_cons.mp d).1 hmem
      rw [List.count_cons_of_ne hne, ih (List.nodup_cons.mp d).2 hmem]

/-! ## Claims -/

/-- C1, counterexample: a record whose first matching fix-commit reference
(`.../c1`) names a commit for which the git query exits non-zero is not
treated as not applicable: the code `continue`s to the later fix-commit
reference `.../c2` (both commits appear in the issued-query list) and
returns true via it. -/
theorem C1_counterexample :
    cexResolve1 (commitOf (("https://git.kernel.org/stable/c/c1").data)) = none ∧
    (evaluate_cve cexResolve1 [("a.c".data)] ⟨("CVE-A".data), cexRefs1⟩).1 = true ∧
    (evaluate_cve cexResolve1 [("a.c".data)] ⟨("CVE-A".data), cexRefs1⟩).2
      = [("c1".data), ("c2".data)] := by decide

/-- C1, amended: when the first matching fix-commit reference's commit is
unresolvable (git exits non-zero), `evaluate_cve` records that query, skips
the reference, and continues with the remaining references: its verdict and
remaining queries are exactly those of evaluating the later references.
Later fix-commit references are therefore examined, and the record is not
treated as not applicable outright. -/
theorem C1_amended_continue (resolve : PyStr → Option PyStr)
    (compiled : List PyStr) (i : PyStr) (before after : List PyStr) (url : PyStr)
    (hb : ∀ u ∈ before, fixUrlStart.isPrefixOf u = false)
    (hu : fixUrlStart.isPrefixOf url = true)
    (hr : resolve (commitOf url) = none) :
    evaluate_cve resolve compiled ⟨i, before ++ url :: after⟩
      = ((evalRefs resolve compiled after).1,
          commitOf url :: (evalRefs resolve compiled after).2) := by
  unfold evaluate_cve
  rw [evalRefs_skip resolve compiled before (url :: after) hb]
  simp [evalRefs, hu, hr]

/-- C1, witness for the amended theorem at the counterexample environment. -/
theorem C1_amended_witness :
    (∀ u ∈ ([] : List PyStr), fixUrlStart.isPrefixOf u = false) ∧
    fixUrlStart.isPrefixOf (("https://git.kernel.org/stable/c/c1").data) = true ∧
    cexResolve1 (commitOf (("https://git.kernel.org/stable/c/c1").data)) = none ∧
    evaluate_cve cexResolve1 [("a.c".data)]
        ⟨("CVE-A".data),
          [] ++ (("https://git.kernel.org/stable/c/c1").data) ::
            [(("https://git.kernel.org/stable/c/c2").data)]⟩
      = ((evalRefs cexResolve1 [("a.c".data)]
            [(("https://git.kernel.org/stable/c/c2").data)]).1,
          commitOf (("https://git.kernel.org/stable/c/c1").data) ::
            (evalRefs cexResolve1 [("a.c".data)]
              [(("https://git.kernel.org/stable/c/c2").data)]).2) :=
  ⟨by decide, by decide, by decide,
    C1_amended_continue cexResolve1 [("a.c".data)] ("CVE-A".data) []
      [(("https://git.kernel.org/stable/c/c2").data)]
      (("https://git.kernel.org/stable/c/c1").data)
      (by decide) (by decide) (by decide)⟩

/-- C2: the SourcePath invariant fails on the code.  With build root
`/build`, the raw dwarfdump line `/buildx/a.c` passes the `startswith`
check (no separator is required), `removeprefix('/build/')` leaves it
unchanged, and the absolute path `/buildx/a.c` is kept in the result set —
contradicting the invariant that kept paths are never absolute. -/
theorem C2_absolute_path_kept :
    extract_sources_from_binary ("/build".data) ("/buildx/a.c".data)
      = [("/buildx/a.c".data)] ∧
    (("/buildx/a.c".data)).head? = some '/' := by decide

/-- C5: if the dwarfdump tool exits non-zero for any one of the artifacts,
`extract_sources` fails as a whole and the extraction stage of `main` leaves
the output file in its prior state (nothing is written or modified). -/
theorem C5_tool_failure_aborts {β : Type} (tool : β → Option PyStr)
    (curDir : PyStr) (binaries : List β) (prev : Option PyStr) (b : β)
    (hmem : b ∈ binaries) (hfail : tool b = none) :
    extract_sources tool curDir binaries = none ∧
    extract_stage tool curDir binaries prev = prev := by
  have h := runListSources_eq_none tool binaries b hmem hfail
  refine ⟨?_, ?_⟩
  · simp [extract_sources, h]
  · simp [extract_stage, extract_sources, h]

/-- C5, witness: artifact `1` of `[0, 1, 2]` fails; the prior file content
survives. -/
theorem C5_witness :
    (1 ∈ [0, 1, 2]) ∧ cexTool5 1 = none ∧
    extract_sources cexTool5 ("/build".data) [0, 1, 2] = none ∧
    extract_stage cexTool5 ("/build".data) [0, 1, 2] (some ("old".data))
      = some ("old".data) :=
  ⟨by decide, by decide,
    (C5_tool_failure_aborts cexTool5 ("/build".data) [0, 1, 2]
      (some ("old".data)) 1 (by decide) (by decide)).1,
    (C5_tool_failure_aborts cexTool5 ("/build".data) [0, 1, 2]
      (some ("old".data)) 1 (by decide) (by decide)).2⟩

/-- C6, counterexample to the claim as literally stated: the raw line
`"\t/build/a.c"` does not start with the build root `/build` (it starts
with a tab), yet normalization strips the line first and returns `a.c`,
not the empty drop-sentinel. -/
theorem C6_counterexample :
    (("/build".data)).isPrefixOf ("\t/build/a.c".data) = false ∧
    normalize_source_path ("/build".data) ("\t/build/a.c".data)
      = ("a.c".data) := by decide

/-- C6, amended: for every raw line whose whitespace-trimmed form does not
start with the build root, normalization returns the empty drop-sentinel.
(Totality — "never raises" — holds by construction: `normalize_source_path`
is a total function of an arbitrary string.) -/
theorem C6_amended_drop (curDir line : PyStr)
    (h : curDir.isPrefixOf (pyStrip line) = false) :
    normalize_source_path curDir line = [] := by
  simp [normalize_source_path, h]

/-- C6, witness: a toolchain-internal relative path outside the build root
is dropped. -/
theorem C6_witness :
    (("/build".data)).isPrefixOf (pyStrip ("foo/a.c".data)) = false ∧
    normalize_source_path ("/build".data) ("foo/a.c".data) = [] :=
  ⟨by decide, C6_amended_drop ("/build".data) ("foo/a.c".data) (by decide)⟩

/-- C7: a non-200 feed response yields the empty record list, and the
correlator consequently counts zero applicable vulnerabilities. -/
theorem C7_non200_empty_feed (resolve : PyStr → Option PyStr)
    (compiled : List PyStr) (parse : PyStr → List Cve) (status : Nat)
    (body : PyStr) (h : status ≠ 200) :
    fetch_cves parse status body = [] ∧
    count_applicable resolve compiled (fetch_cves parse status body) = 0 := by
  have hf : fetch_cves parse status body = [] := by simp [fetch_cves, h]
  exact ⟨hf, by simp [hf, count_applicable]⟩

/-- C7, witness: HTTP 503 gives an empty feed and a zero count. -/
theorem C7_witness :
    (503 ≠ 200) ∧
    fetch_cves (fun _ => []) 503 [] = [] ∧
    count_applicable (fun _ => none) [] (fetch_cves (fun _ => []) 503 []) = 0 :=
  ⟨by decide,
    (C7_non200_empty_feed (fun _ => none) [] (fun _ => []) 503 [] (by decide)).1,
    (C7_non200_empty_feed (fun _ => none) [] (fun _ => []) 503 [] (by decide)).2⟩

/-- C8: a record none of whose reference URLs starts with the fix-commit
prefix evaluates to false, and its issued-query list is empty (no
version-control query is run). -/
theorem C8_no_fix_ref (resolve : PyStr → Option PyStr) (compiled : List PyStr)
    (cve : Cve) (h : ∀ u ∈ cve.references, fixUrlStart.isPrefixOf u = false) :
    evaluate_cve resolve compiled cve = (false, []) := by
  have hs := evalRefs_skip resolve compiled cve.references [] h
  rw [List.append_nil] at hs
  exact hs

/-- C8, witness: a record with one non-matching reference URL. -/
theorem C8_witness :
    (∀ u ∈ [(("https://example.com/x").data)],
      fixUrlStart.isPrefixOf u = false) ∧
    evaluate_cve (fun _ => none) []
      ⟨("CVE-C".data), [(("https://example.com/x").data)]⟩ = (false, []) :=
  ⟨by decide,
    C8_no_fix_ref (fun _ => none) []
      ⟨("CVE-C".data), [(("https://example.com/x").data)]⟩ (by decide)⟩

/-- C9: the aggregated extraction result is duplicate-free; a path belongs
to it iff it is produced for some artifact's debug output, and any member
occurs in it exactly once (a raw line occurring in several artifacts
contributes one entry). -/
theorem C9_aggregate_dedup (curDir : PyStr) (outputs : List PyStr) :
    (aggregate_sources curDir outputs).Nodup ∧
    (∀ a, a ∈ aggregate_sources curDir outputs ↔
      ∃ out ∈ outputs, a ∈ extract_sources_from_binary curDir out) ∧
    (∀ a ∈ aggregate_sources curDir outputs,
      List.count a (aggregate_sources curDir outputs) = 1) := by
  refine ⟨List.nodup_dedup _, fun a => ?_,
    fun a ha => count_one_of_nodup_mem (List.nodup_dedup _) ha⟩
  simp [aggregate_sources, List.mem_dedup, List.mem_flatMap]

/-- C9, witness: the same raw line in two artifacts' outputs collapses to a
single entry. -/
theorem C9_witness :
    (aggregate_sources ("/build".data)
      [("/build/a.c".data), ("/build/a.c".data)]).Nodup ∧
    List.count ("a.c".data)
      (aggregate_sources ("/build".data)
        [("/build/a.c".data), ("/build/a.c".data)]) = 1 :=
  ⟨(C9_aggregate_dedup ("/build".data)
      [("/build/a.c".data), ("/build/a.c".data)]).1,
    (C9_aggregate_dedup ("/build".data)
      [("/build/a.c".data), ("/build/a.c".data)]).2.2 ("a.c".data) (by decide)⟩

/-- Python string `<=` is total. -/
theorem pyStrLe_total (a b : PyStr) : pyStrLe a b || pyStrLe b a := by
  induction a generalizing b with
  | nil => simp [pyStrLe]
  | cons x xs ih =>
    cases b with
    | nil => simp [pyStrLe]
    | cons y ys =>
      rcases lt_trichotomy x y with h | h | h
      · simp [pyStrLe, h]
      · subst h
        have := ih ys
        simp only [pyStrLe, lt_irrefl, if_false, if_pos rfl]
        simpa using this
      · simp [pyStrLe, h]

/-- Python string `<=` is transitive. -/
theorem pyStrLe_trans (a b c : PyStr) (hab : pyStrLe a b) (hbc : pyStrLe b c) :
    pyStrLe a c := by
  induction a generalizing b c with
  | nil => rfl
  | cons x xs ih =>
    cases b with
    | nil => simp [pyStrLe] at hab
    | cons y ys =>
      cases c with
      | nil => simp [pyStrLe] at hbc
      | cons z zs =>
        simp only [pyStrLe] at hab hbc ⊢
        by_cases hxy : x < y
        · by_cases hyz : y < z
          · simp [lt_trans hxy hyz]
          · by_cases hyz2 : y = z
            · subst hyz2
              simp [hxy]
            · simp [hyz, hyz2] at hbc
        · by_cases hxy2 : x = y
          · subst hxy2
            simp only [lt_irrefl, if_false, if_pos rfl] at hab
            by_cases hyz : x < z
            · simp [hyz]
            · by_cases hyz2 : x = z
              · subst hyz2
                simp only [lt_irrefl, if_false, if_pos rfl] at hbc ⊢
                exact ih ys zs hab hbc
              · simp [hyz, hyz2] at hbc
          · simp [hxy, hxy2] at hab

/-- C10: `write_sources` sorts its caller's `sources` list in place: after
the call the list is a permutation of the original (same multiset, hence
the same set of elements) arranged ascending by Python string comparison —
and the list is genuinely mutated, as the unsorted `["b", "a"]` shows. -/
theorem C10_sort_in_place :
    (∀ l : List PyStr, (write_sources_arg l).Perm l ∧
      (write_sources_arg l).Pairwise (fun a b => pyStrLe a b)) ∧
    write_sources_arg [("b".data), ("a".data)] ≠ [("b".data), ("a".data)] := by
  refine ⟨fun l => ⟨List.mergeSort_perm l pyStrLe,
    List.sorted_mergeSort pyStrLe_trans pyStrLe_total l⟩, fun heq => ?_⟩
  have hp := List.sorted_mergeSort pyStrLe_trans pyStrLe_total
    [("b".data), ("a".data)]
  rw [write_sources_arg] at heq
  rw [heq] at hp
  have hba := (List.pairwise_cons.mp hp).1 ("a".data) (by simp)
  exact absurd hba (by decide)

/-- C10, witness at the concrete list `["b", "a"]`. -/
theorem C10_witness :
    (write_sources_arg [("b".data), ("a".data)]).Perm
        [("b".data), ("a".data)] ∧
    (write_sources_arg [("b".data), ("a".data)]).Pairwise
        (fun a b => pyStrLe a b) :=
  C10_sort_in_place.1 [("b".data), ("a".data)]

/-- `readlines` recovers a newline-free first line together with its
terminator. -/
theorem pyReadLines_break (x s : PyStr) (hx : '\n' ∉ x) :
    pyReadLines (x ++ '\n' :: s) = (x ++ ('\n' :: [])) :: pyReadLines s := by
  induction x with
  | nil => simp [pyReadLines]
  | cons c cs ih =>
    rw [List.mem_cons, not_or] at hx
    have hc : ¬ c = '\n' := fun h => hx.1 h.symm
    have ih' := ih hx.2
    simp [pyReadLines, hc, ih']

/-- Unfolding of `pyJoin` on a list of at least two pieces. -/
theorem pyJoin_cons₂ (sep : Char) (x y : PyStr) (rest : List PyStr) :
    pyJoin sep (x :: y :: rest) = x ++ sep :: pyJoin sep (y :: rest) := rfl

/-- `readlines` of newline-joined, newline-terminated lines (the format
`write_sources` produces for a non-empty list) recovers exactly the lines,
each carrying its terminator. -/
theorem pyReadLines_join (lines : List PyStr) (hne : lines ≠ [])
    (h : ∀ l ∈ lines, '\n' ∉ l) :
    pyReadLines (pyJoin '\n' lines ++ ('\n' :: []))
      = lines.map (fun l => l ++ ('\n' :: [])) := by
  induction lines with
  | nil => cases hne rfl
  | cons x rest ih =>
    cases rest with
    | nil =>
      have hx := h x (by simp)
      have := pyReadLines_break x [] hx
      simpa [pyJoin] using this
    | cons y rest2 =>
      have hx := h x (by simp)
      have ih' := ih (List.cons_ne_nil y rest2)
        (fun l hl => h l (List.mem_cons_of_mem x hl))
      have hassoc : (x ++ '\n' :: pyJoin '\n' (y :: rest2)) ++ ('\n' :: [])
          = x ++ '\n' :: (pyJoin '\n' (y :: rest2) ++ ('\n' :: [])) := by
        simp
      calc pyReadLines (pyJoin '\n' (x :: y :: rest2) ++ ('\n' :: []))
          = pyReadLines (x ++ '\n' :: (pyJoin '\n' (y :: rest2) ++ ('\n' :: []))) := by
            rw [pyJoin_cons₂, hassoc]
        _ = (x ++ ('\n' :: [])) :: pyReadLines (pyJoin '\n' (y :: rest2) ++ ('\n' :: [])) :=
            pyReadLines_break x _ hx
        _ = (x :: y :: rest2).map (fun l => l ++ ('\n' :: [])) := by
            rw [ih']
            simp

/-- Stripping is unaffected by a trailing newline. -/
theorem pyStrip_newline (l : PyStr) : pyStrip (l ++ ('\n' :: [])) = pyStrip l := by
  have hnl : isPyWS '\n' = true := by decide
  have h : pyStripR (l ++ ('\n' :: [])) = pyStripR l := by
    simp [pyStripR, List.dropWhile_cons, hnl]
  simp [pyStrip, h]

/-- C3, counterexample: for the empty CompiledFileSet the persistence
operation writes a single newline (`print` with no arguments), and the
correlator's loading step reads that file back as the one-element set
`{"."}` (`normpath('') == '.'`), not as the empty set. -/
theorem C3_counterexample :
    read_compiled_files (write_sources_content []) = [('.' :: [])] ∧
    (read_compiled_files (write_sources_content [])).toFinset
      ≠ (([] : List PyStr)).toFinset := by
  have hc : write_sources_content [] = ('\n' :: []) := by
    simp [write_sources_content, write_sources_arg, pyJoin]
  have hr : read_compiled_files (write_sources_content []) = [('.' :: [])] := by
    rw [hc]
    decide
  refine ⟨hr, ?_⟩
  rw [hr]
  decide

/-- C3, amended: for every non-empty CompiledFileSet whose member paths are
newline-free and fixed points of strip-then-normalize (canonical normalized
paths are), writing with `write_sources` and re-loading with the
correlator's read step yields a set equal to the original. -/
theorem C3_roundtrip (l : List PyStr) (hne : l ≠ [])
    (h : ∀ x ∈ l, '\n' ∉ x ∧ normpath (pyStrip x) = x) :
    (read_compiled_files (write_sources_content l)).toFinset = l.toFinset := by
  have hperm := List.mergeSort_perm l pyStrLe
  have hm : write_sources_arg l ≠ [] := by
    intro h0
    rw [write_sources_arg] at h0
    rw [h0] at hperm
    exact hne hperm.symm.eq_nil
  have hml : ∀ x ∈ write_sources_arg l, '\n' ∉ x ∧ normpath (pyStrip x) = x :=
    fun x hx => h x (List.mem_mergeSort.mp hx)
  have hread : read_compiled_files (write_sources_content l)
      = write_sources_arg l := by
    rw [read_compiled_files, write_sources_content,
      pyReadLines_join (write_sources_arg l) hm (fun x hx => (hml x hx).1),
      List.map_map]
    have : ∀ x ∈ write_sources_arg l,
        ((fun s => normpath (pyStrip s)) ∘ fun s => s ++ ('\n' :: [])) x = id x := by
      intro x hx
      show normpath (pyStrip (x ++ ('\n' :: []))) = x
      rw [pyStrip_newline]
      exact (hml x hx).2
    rw [List.map_congr_left this, List.map_id]
  rw [hread]
  apply Finset.ext
  intro a
  simp only [List.mem_toFinset, write_sources_arg, List.mem_mergeSort]

/-- C3, witness for the amended round trip at the one-element set
`{"a.c"}`. -/
theorem C3_witness :
    ([("a.c".data)] ≠ ([] : List PyStr)) ∧
    (∀ x ∈ [("a.c".data)], '\n' ∉ x ∧ normpath (pyStrip x) = x) ∧
    (read_compiled_files (write_sources_content [("a.c".data)])).toFinset
      = ([("a.c".data)]).toFinset :=
  ⟨by decide, by decide,
    C3_roundtrip [("a.c".data)] (by decide) (by decide)⟩

/-- C4, counterexample: a record with a resolvable fix commit whose changed
file is spelled `./a.c`.  The compiled set (loaded from the raw line
`./a.c`) holds the normalized `a.c`; the code compares the merely stripped
git path `./a.c` against it and returns false, while under the identical
normalization of both sides (the spec's §3 equality) the intersection is
non-empty. -/
theorem C4_counterexample :
    cexResolve4 (commitOf (("https://git.kernel.org/stable/c/c1").data))
      = some ("./a.c".data) ∧
    normpath (pyStrip ("./a.c".data)) = ("a.c".data) ∧
    (evaluate_cve cexResolve4 [("a.c".data)] ⟨("CVE-B".data), cexRefs4⟩).1
      = false ∧
    spec_applicable [("a.c".data)] ("./a.c".data) = true := by decide

/-- C4, amended: for a record whose first matching fix-commit reference
resolves, `evaluate_cve` returns true iff some stdout line of the git
query, after whitespace-stripping only (no path normalization is applied to
the version-control paths), is a member of the CompiledFileSet (whose
elements were strip+normpath normalized at load time). -/
theorem C4_membership (resolve : PyStr → Option PyStr) (compiled : List PyStr)
    (i : PyStr) (before after : List PyStr) (url stdout : PyStr)
    (hb : ∀ u ∈ before, fixUrlStart.isPrefixOf u = false)
    (hu : fixUrlStart.isPrefixOf url = true)
    (hr : resolve (commitOf url) = some stdout) :
    ((evaluate_cve resolve compiled ⟨i, before ++ url :: after⟩).1 = true
      ↔ ∃ line ∈ pySplitlines stdout, pyStrip line ∈ compiled) := by
  unfold evaluate_cve
  rw [evalRefs_skip resolve compiled before (url :: after) hb]
  simp [evalRefs, hu, hr, List.any_eq_true]

/-- C4, witness for the amended theorem at the counterexample record. -/
theorem C4_witness :
    (∀ u ∈ ([] : List PyStr), fixUrlStart.isPrefixOf u = false) ∧
    fixUrlStart.isPrefixOf (("https://git.kernel.org/stable/c/c1").data)
      = true ∧
    cexResolve4 (commitOf (("https://git.kernel.org/stable/c/c1").data))
      = some ("./a.c".data) ∧
    ((evaluate_cve cexResolve4 [("a.c".data)]
        ⟨("CVE-B".data),
          [] ++ (("https://git.kernel.org/stable/c/c1").data) :: []⟩).1 = true
      ↔ ∃ line ∈ pySplitlines ("./a.c".data),
          pyStrip line ∈ [("a.c".data)]) :=
  ⟨by decide, by decide, by decide,
    C4_membership cexResolve4 [("a.c".data)] ("CVE-B".data) [] []
      (("https://git.kernel.org/stable/c/c1").data) ("./a.c".data)
      (by decide) (by decide) (by decide)⟩
